import Mathlib

/-!
Verification of the weaviate-console backup-history tracker and related
page logic (`src/pages/backup.py`, `src/pages/delete_collections.py`,
`src/pages/create.py`, `src/pages/add_document.py`,
`src/utils/collections/read_all_objects.py`) against its specification.

The stateful tracker is embedded as a pure state machine: the
`BackupHistory` collection inside the remote database is a list of
records in insertion order (`fetch_objects` is modelled as returning the
stored records in that order, truncated at the requested limit), object
uuids are a fresh-`Nat` counter and `datetime.now()` is an explicit
`now : Nat` argument to each operation.  UI calls (`st.error`,
`st.success`, spinners, session state) have no effect on the tracker
state and are dropped.
-/

namespace WeaviateConsole

/-- A stored backup-history record (`src/pages/backup.py`, the
`metadata` dict built by `store_backup_metadata` plus the object uuid
assigned by the store).  `completion_time = none` models the
`completion_time` key being absent from the stored object (the
`store_backup_metadata` dict comprehension removes `None`-valued
fields). -/
structure BackupRecord where
  uuid : Nat
  backup_id : String
  provider : String
  status : String
  created_date : Nat
  collections : List String
  path : String
  size_bytes : Nat
  error_message : String
  completion_time : Option Nat
  deriving Repr, DecidableEq

/-- The tracker-visible state of the remote database: whether the
`BackupHistory` collection exists, its objects in insertion order, and
the next fresh object uuid. -/
structure TrackerState where
  historyExists : Bool
  store : List BackupRecord
  nextUuid : Nat
  deriving Repr, DecidableEq

/-- The empty database: no `BackupHistory` collection, no records. -/
def initState : TrackerState :=
  { historyExists := false, store := [], nextUuid := 0 }

/-- `initialize_backup_history_collection` (backup.py lines 16-46):
creates the history collection when absent.  The underlying
`create_collection_with_properties` lives in `utils/collections`; for
the state machine its effect is that the collection exists afterwards. -/
def initialize_backup_history_collection (s : TrackerState) : TrackerState :=
  if s.historyExists then s else { s with historyExists := true }

/-- The record inserted by `store_backup_metadata` (backup.py lines
58-71): `created_date` is `datetime.now()`; `completion_time` is
`completion_time or datetime.now() if status in ["SUCCESS", "FAILED"]
else None` — by Python precedence
`(completion_time or now) if terminal else None` — and `None`-valued
fields are then removed (modelled by `Option`). -/
def buildMetadata (backup_id provider : String) (collections : List String)
    (status : String) (path : String) (size_bytes : Nat)
    (error_message : String) (completion_time : Option Nat)
    (uuid now : Nat) : BackupRecord :=
  { uuid := uuid
    backup_id := backup_id
    provider := provider
    status := status
    created_date := now
    collections := collections
    path := path
    size_bytes := size_bytes
    error_message := error_message
    completion_time :=
      if status = "SUCCESS" ∨ status = "FAILED" then
        some (completion_time.getD now)
      else
        none }

/-- `store_backup_metadata` (backup.py lines 48-77): ensures the history
collection exists, inserts a fresh record, returns `(True, msg)`.
No duplicate-`backup_id` check is performed. -/
def store_backup_metadata (s : TrackerState) (backup_id provider : String)
    (collections : List String) (status : String := "IN_PROGRESS")
    (path : String := "") (size_bytes : Nat := 0)
    (error_message : String := "") (completion_time : Option Nat := none)
    (now : Nat := 0) : TrackerState × Bool × String :=
  let s := initialize_backup_history_collection s
  let r := buildMetadata backup_id provider collections status path
      size_bytes error_message completion_time s.nextUuid now
  ({ s with store := s.store ++ [r], nextUuid := s.nextUuid + 1 },
   true, "Backup metadata stored successfully")

/-- `get_backup_history` (backup.py lines 79-102): empty when the
collection is absent; otherwise fetch up to `limit` objects and sort by
`created_date` descending (`backups.sort(key=..., reverse=True)`, a
stable sort, modelled by `List.mergeSort` with the reversed
comparison). -/
def get_backup_history (s : TrackerState) (limit : Nat := 100) :
    List BackupRecord :=
  if s.historyExists then
    (s.store.take limit).mergeSort
      (fun a b => b.created_date ≤ a.created_date)
  else
    []

/-- The `update_data` overwrite applied by `update_backup_status`
(backup.py lines 127-142) to the located record: `status` and
`completion_time` unconditionally; `error_message`, `size_bytes`, `path`
only when the corresponding argument is non-trivial. -/
def updatedRecord (r : BackupRecord) (status error_message : String)
    (size_bytes : Nat) (path : String) (now : Nat) : BackupRecord :=
  { r with
    status := status
    completion_time := some now
    error_message := if error_message ≠ "" then error_message
                     else r.error_message
    size_bytes := if size_bytes > 0 then size_bytes else r.size_bytes
    path := if path ≠ "" then path else r.path }

/-- `update_backup_status` (backup.py lines 104-149): scans the first
1000 fetched records for the first one whose `backup_id` matches, and
overwrites it via `updatedRecord` (no terminal-status guard).  Fails
without touching the store when the collection is absent or no record
matches. -/
def update_backup_status (s : TrackerState) (backup_id status : String)
    (error_message : String := "") (size_bytes : Nat := 0)
    (path : String := "") (now : Nat := 0) :
    TrackerState × Bool × String :=
  if s.historyExists then
    match (s.store.take 1000).find? (fun r => r.backup_id = backup_id) with
    | some r =>
      let r' := updatedRecord r status error_message size_bytes path now
      ({ s with store := s.store.map (fun x => if x.uuid = r.uuid then r' else x) },
       true, "Backup status updated successfully")
    | none => (s, false, "Backup record not found for ID: " ++ backup_id)
  else
    (s, false, "Backup history collection not found")

/-- `delete_backup_record` (backup.py lines 151-163): removes the record
with the given object uuid. -/
def delete_backup_record (s : TrackerState) (backup_uuid : Nat) :
    TrackerState × Bool × String :=
  if s.historyExists then
    ({ s with store := s.store.filter (fun r => r.uuid ≠ backup_uuid) },
     true, "Backup record deleted successfully")
  else
    (s, false, "Backup history collection not found")

/-- `create_backup` (backup.py lines 267-318): store an `IN_PROGRESS`
record, invoke `client.backup.create` (whose outcome — normal return or
raised exception message — is the `result` argument), then transition
via `update_backup_status` to `SUCCESS` on completion or `FAILED` (with
the exception text) on exception. -/
def create_backup (s : TrackerState) (backup_id provider : String)
    (collections : List String) (result : Except String Unit)
    (now : Nat := 0) : TrackerState × Bool :=
  let s1 := (store_backup_metadata s backup_id provider collections
      "IN_PROGRESS" "" 0 "" none now).1
  match result with
  | .ok _ =>
    ((update_backup_status s1 backup_id "SUCCESS" "" 0 "" now).1, true)
  | .error e =>
    ((update_backup_status s1 backup_id "FAILED" e 0 "" now).1, false)

/-- `restore_backup` (backup.py lines 362-394): invokes
`client.backup.restore` (outcome in `result`) inside a `try`; the only
failure handling is a UI error message.  No history record is stored or
updated, so the tracker state is returned unchanged. -/
def restore_backup (s : TrackerState) (backup_id provider : String)
    (result : Except String Unit) : TrackerState × Bool :=
  match result with
  | .ok _ => (s, true)
  | .error _ => (s, false)

/-- One externally triggerable operation of the Backup History Tracker,
with the environment inputs (current time, remote backup/restore
outcome) baked into the step. -/
inductive TrackerOp where
  | storeOp (backup_id provider : String) (collections : List String)
      (status path : String) (size_bytes : Nat) (error_message : String)
      (completion_time : Option Nat) (now : Nat)
  | updateOp (backup_id status error_message : String) (size_bytes : Nat)
      (path : String) (now : Nat)
  | deleteOp (backup_uuid : Nat)
  | createOp (backup_id provider : String) (collections : List String)
      (result : Except String Unit) (now : Nat)
  | restoreOp (backup_id provider : String) (result : Except String Unit)
  deriving Repr

/-- The step function of the tracker: the state after running one
operation. -/
def applyOp (s : TrackerState) : TrackerOp → TrackerState
  | .storeOp id prov colls status path size err ct now =>
    (store_backup_metadata s id prov colls status path size err ct now).1
  | .updateOp id status err size path now =>
    (update_backup_status s id status err size path now).1
  | .deleteOp u => (delete_backup_record s u).1
  | .createOp id prov colls res now =>
    (create_backup s id prov colls res now).1
  | .restoreOp id prov res => (restore_backup s id prov res).1

/-- The state reached by a sequence of operations from the empty
database. -/
def run (ops : List TrackerOp) : TrackerState :=
  ops.foldl applyOp initState

/-- A state is reachable when some operation sequence produces it. -/
def Reachable (s : TrackerState) : Prop :=
  ∃ ops : List TrackerOp, run ops = s

/-!
### Exception-boundary model

For the propagation-policy claim the same tracker functions are embedded
at the level of Python's exception semantics: every remote-client call
either returns a value or raises (an `Except String` outcome supplied by
a `RemoteClient` behaviour), a function body is an `Except`-computation,
and a `try/except` block is `pyTry`.  A public operation whose embedding
is always `Except.ok` returns normally on every client behaviour.
-/

/-- One behaviour of the remote weaviate client: the outcome (normal
return or raised exception) of each remote call the tracker and listing
functions perform. -/
structure RemoteClient where
  existsResult : Except String Bool
  createCollectionResult : Except String (Bool × String)
  getCollectionResult : Except String Unit
  insertResult : Except String Unit
  fetchResult : Except String (List BackupRecord)
  updateResult : Except String Unit
  deleteResult : Except String Unit
  listAllResult : Except String (List String)

/-- Python `try: body except Exception as e: handler(e)` for a body that
produces a value of type `α`. -/
def pyTry (body : Except String α) (handler : String → α) : α :=
  match body with
  | .ok a => a
  | .error e => handler e

/-- `initialize_backup_history_collection` at exception level: its whole
body is inside `try/except`, so it returns normally on every client
behaviour. -/
def initializeE (c : RemoteClient) : Unit :=
  pyTry
    (do
      let ex ← c.existsResult
      if !ex then
        let _ ← c.createCollectionResult
        pure ()
      else
        pure ())
    (fun _ => ())

/-- `store_backup_metadata` at exception level (backup.py lines 48-77):
exists-check, optional initialization, `collections.get`, `data.insert`,
all inside one `try/except` that converts any exception into
`(False, "Error storing backup metadata: ...")`. -/
def store_backup_metadataE (c : RemoteClient) : Except String (Bool × String) :=
  match (do
      let ex ← c.existsResult
      if !ex then
        let _ : Unit := initializeE c
        pure ()
      else
        pure ()
      let _ ← c.getCollectionResult
      let _ ← c.insertResult
      pure (true, "Backup metadata stored successfully") :
        Except String (Bool × String)) with
  | .ok v => .ok v
  | .error e => .ok (false, "Error storing backup metadata: " ++ e)

/-- `update_backup_status` at exception level (backup.py lines
104-149). -/
def update_backup_statusE (c : RemoteClient) (backup_id : String) :
    Except String (Bool × String) :=
  match (do
      let ex ← c.existsResult
      if !ex then
        pure (false, "Backup history collection not found")
      else do
        let _ ← c.getCollectionResult
        let objs ← c.fetchResult
        match (objs.take 1000).find? (fun r => r.backup_id = backup_id) with
        | some _ => do
          let _ ← c.updateResult
          pure (true, "Backup status updated successfully")
        | none =>
          pure (false, "Backup record not found for ID: " ++ backup_id) :
        Except String (Bool × String)) with
  | .ok v => .ok v
  | .error e => .ok (false, "Error updating backup status: " ++ e)

/-- `delete_backup_record` at exception level (backup.py lines
151-163). -/
def delete_backup_recordE (c : RemoteClient) : Except String (Bool × String) :=
  match (do
      let ex ← c.existsResult
      if !ex then
        pure (false, "Backup history collection not found")
      else do
        let _ ← c.getCollectionResult
        let _ ← c.deleteResult
        pure (true, "Backup record deleted successfully") :
        Except String (Bool × String)) with
  | .ok v => .ok v
  | .error e => .ok (false, "Error deleting backup record: " ++ e)

/-- `list_all_collections`
(`src/utils/collections/read_all_objects.py` lines 5-12): returns the
remote listing, or `[]` when the client raises. -/
def list_all_collectionsE (c : RemoteClient) : Except String (List String) :=
  match c.listAllResult with
  | .ok collections => .ok collections
  | .error _ => .ok []

/-!
### Best-effort collection deletion (`src/pages/delete_collections.py`)
-/

/-- Outcome classifier for one `delete_collections(client, [collection])`
call inside `perform_deletion`: the callee returns `(success, message)`
or raises. -/
def deletionFailure (f : String → Except String (Bool × String))
    (collection : String) : Option (String × String) :=
  match f collection with
  | .ok (true, _) => none
  | .ok (false, message) => some (collection, message)
  | .error e => some (collection, e)

/-- `perform_deletion` (delete_collections.py lines 146-192): iterate
over every listed collection, calling `delete_collections` on each
(outcome given by `f`); count successes and collect `(name, error)`
pairs for failures; neither a `(False, message)` result nor a raised
exception stops the loop.  Result: `(success_count,
failed_collections)`. -/
def perform_deletion (f : String → Except String (Bool × String)) :
    List String → Nat × List (String × String)
  | [] => (0, [])
  | collection :: rest =>
    let head : Nat × List (String × String) :=
      match f collection with
      | .ok (true, _) => (1, [])
      | .ok (false, message) => (0, [(collection, message)])
      | .error e => (0, [(collection, e)])
    let tail := perform_deletion f rest
    (head.1 + tail.1, head.2 ++ tail.2)

/-!
### Custom-property management (`src/pages/create.py`)
-/

/-- A property definition held in `st.session_state.custom_properties`
(`name`, `type`, `description`). -/
structure CustomProperty where
  name : String
  dataType : String
  description : String
  deriving Repr, DecidableEq

/-- Python `str.strip()`: remove leading and trailing whitespace. -/
def pyStrip (s : String) : String :=
  ⟨((s.data.dropWhile Char.isWhitespace).reverse.dropWhile
      Char.isWhitespace).reverse⟩

/-- Python `str.lower()` (ASCII scope of this repository). -/
def pyLower (s : String) : String :=
  ⟨s.data.map Char.toLower⟩

/-- Python `str.replace(' ', '_')`. -/
def pyReplaceSpace (s : String) : String :=
  ⟨s.data.map (fun ch => if ch = ' ' then '_' else ch)⟩

/-- The sanitized name computed by the add-property handler
(create.py line 74): `new_prop_name.strip().lower().replace(' ', '_')`. -/
def sanitizedName (raw : String) : String :=
  pyReplaceSpace (pyLower (pyStrip raw))

/-- The "Add Property" button handler of `manage_custom_properties`
(create.py lines 71-88): reject blank names; compare the sanitized new
name against the lower-cased stored names; on acceptance append the
*stripped but otherwise unsanitized* name.  Returns the new property
list and whether the property was accepted. -/
def addProperty (props : List CustomProperty) (new_prop_name : String)
    (new_prop_type : String) : List CustomProperty × Bool :=
  if pyStrip new_prop_name ≠ "" then
    let sanitized_name := sanitizedName new_prop_name
    let existing_names := props.map (fun prop => pyLower prop.name)
    if sanitized_name ∉ existing_names then
      (props ++ [{ name := pyStrip new_prop_name, dataType := new_prop_type,
                   description := "" }], true)
    else
      (props, false)
  else
    (props, false)

/-- Folding a sequence of "Add Property" clicks over an initial
(empty) property list. -/
def addProperties (inputs : List (String × String)) : List CustomProperty :=
  inputs.foldl (fun props i => (addProperty props i.1 i.2).1) []

/-!
### BLOB encoding in the add-document form (`src/pages/add_document.py`)
-/

/-- The base64 alphabet (RFC 4648), as used by Python's
`base64.b64encode`. -/
def base64Alphabet : List Char :=
  "ABCDEFGHIJKLMNOPQRSTUVWXYZabcdefghijklmnopqrstuvwxyz0123456789+/".data

/-- The alphabet character at sextet value `n`. -/
def base64Char (n : Nat) : Char :=
  base64Alphabet.getD n 'A'

/-- The character stream of the standard base64 encoding of a byte
sequence: three bytes become four alphabet characters; a trailing group
of two or one byte is padded with `=`. -/
def base64Chars : List Nat → List Char
  | b0 :: b1 :: b2 :: rest =>
    let n := b0 % 256 * 65536 + b1 % 256 * 256 + b2 % 256
    base64Char (n / 262144 % 64) :: base64Char (n / 4096 % 64) ::
      base64Char (n / 64 % 64) :: base64Char (n % 64) :: base64Chars rest
  | [b0, b1] =>
    let n := b0 % 256 * 65536 + b1 % 256 * 256
    [base64Char (n / 262144 % 64), base64Char (n / 4096 % 64),
     base64Char (n / 64 % 64), '=']
  | [b0] =>
    let n := b0 % 256 * 65536
    [base64Char (n / 262144 % 64), base64Char (n / 4096 % 64), '=', '=']
  | [] => []

/-- Standard base64 encoding of a byte sequence, the semantics of
Python's `base64.b64encode(...).decode('utf-8')`. -/
def base64Encode (bs : List Nat) : String :=
  ⟨base64Chars bs⟩

/-- The BLOB branch of `create_dynamic_form` (add_document.py lines
131-161): whether on the `multi2vec_clip` image path or the generic
file path, an uploaded file's bytes are placed in `document_data` as
`base64.b64encode(bytes).decode('utf-8')`, and the empty string is
placed when no file is supplied. -/
def blobFieldValue (vectorizer : String) (prop_name : String)
    (uploaded_file : Option (List Nat)) : String :=
  if vectorizer = "multi2vec_clip" ∧ pyLower prop_name = "image" then
    match uploaded_file with
    | some image_bytes => base64Encode image_bytes
    | none => ""
  else
    match uploaded_file with
    | some file_bytes => base64Encode file_bytes
    | none => ""

/-!
### Theorems
-/

/-- Helper: initializing the history collection never touches the
stored records. -/
theorem initialize_store (s : TrackerState) :
    (initialize_backup_history_collection s).store = s.store := by
  unfold initialize_backup_history_collection
  split <;> rfl

/-- Helper: initializing the history collection never touches the uuid
counter. -/
theorem initialize_nextUuid (s : TrackerState) :
    (initialize_backup_history_collection s).nextUuid = s.nextUuid := by
  unfold initialize_backup_history_collection
  split <;> rfl

/-- Helper: after initialization the history collection exists. -/
theorem initialize_historyExists (s : TrackerState) :
    (initialize_backup_history_collection s).historyExists = true := by
  unfold initialize_backup_history_collection
  split <;> simp_all

/-- Helper: a map that fixes every element of a list leaves the list
unchanged. -/
theorem map_eq_self_of_fixed {l : List α} {f : α → α}
    (h : ∀ x ∈ l, f x = x) : l.map f = l := by
  rw [List.map_congr_left h]
  simp

/-- C10: the record inserted by `store_backup_metadata` carries a
`completion_time` field exactly when the `status` argument is `SUCCESS`
or `FAILED`; for any other status — in particular `IN_PROGRESS` — the
field is `None` (by the precedence of Python's conditional expression)
and is stripped before insert, even when an explicit `completion_time`
argument was supplied; for a terminal status the field holds the
supplied time, defaulting to `now`. -/
theorem store_completion_time_iff_terminal
    (s : TrackerState) (backup_id provider : String)
    (collections : List String) (status path : String) (size_bytes : Nat)
    (error_message : String) (completion_time : Option Nat) (now : Nat) :
    ∃ r : BackupRecord,
      (store_backup_metadata s backup_id provider collections status path
          size_bytes error_message completion_time now).1.store
        = s.store ++ [r]
      ∧ (r.completion_time ≠ none ↔ (status = "SUCCESS" ∨ status = "FAILED"))
      ∧ ((status = "SUCCESS" ∨ status = "FAILED") →
          r.completion_time = some (completion_time.getD now))
      ∧ (status = "IN_PROGRESS" → r.completion_time = none) := by
  refine ⟨buildMetadata backup_id provider collections status path size_bytes
      error_message completion_time
      (initialize_backup_history_collection s).nextUuid now, ?_, ?_, ?_, ?_⟩
  · simp only [store_backup_metadata, initialize_backup_history_collection]
    split <;> rfl
  · by_cases h : status = "SUCCESS" ∨ status = "FAILED" <;>
      simp [buildMetadata, h]
  · intro h; simp [buildMetadata, h]
  · intro h
    have : ¬ (status = "SUCCESS" ∨ status = "FAILED") := by
      subst h; simp
    simp [buildMetadata, this]

/-- C10 witness: an explicit `completion_time` supplied with
`IN_PROGRESS` is stripped, while `SUCCESS` keeps it. -/
theorem store_completion_time_iff_terminal_witness :
    (∃ r : BackupRecord,
      (store_backup_metadata initState "b1" "filesystem" ["C"]
          "IN_PROGRESS" "" 0 "" (some 5) 7).1.store = initState.store ++ [r]
      ∧ r.completion_time = none)
    ∧ (∃ r : BackupRecord,
      (store_backup_metadata initState "b1" "filesystem" ["C"]
          "SUCCESS" "" 0 "" (some 5) 7).1.store = initState.store ++ [r]
      ∧ r.completion_time = some 5) := by
  constructor
  · obtain ⟨r, h1, _, _, h4⟩ := store_completion_time_iff_terminal initState
      "b1" "filesystem" ["C"] "IN_PROGRESS" "" 0 "" (some 5) 7
    exact ⟨r, h1, h4 rfl⟩
  · obtain ⟨r, h1, _, h3, _⟩ := store_completion_time_iff_terminal initState
      "b1" "filesystem" ["C"] "SUCCESS" "" 0 "" (some 5) 7
    exact ⟨r, h1, h3 (Or.inl rfl)⟩

/-- C4: when the history collection exists but no record among the up to
1000 scanned ones carries the requested `backup_id`,
`update_backup_status` returns failure with the not-found message naming
that `backup_id`, and the tracker state — in particular the stored
record set — is completely unchanged. -/
theorem update_backup_status_unknown_id
    (s : TrackerState) (backup_id status error_message : String)
    (size_bytes : Nat) (path : String) (now : Nat)
    (hex : s.historyExists = true)
    (habsent : ∀ r ∈ s.store.take 1000, r.backup_id ≠ backup_id) :
    update_backup_status s backup_id status error_message size_bytes path now
      = (s, false, "Backup record not found for ID: " ++ backup_id) := by
  have hnone : (s.store.take 1000).find?
      (fun r => r.backup_id = backup_id) = none := by
    simp only [List.find?_eq_none, decide_eq_true_eq]
    exact habsent
  simp [update_backup_status, hex, hnone]

/-- C4 witness: updating an unknown id on a one-record store fails with
the id-naming message and leaves the store intact. -/
theorem update_backup_status_unknown_id_witness :
    (store_backup_metadata initState "b1" "filesystem" ["C"]
        "SUCCESS" "" 0 "" none 3).1.historyExists = true
    ∧ update_backup_status
        (store_backup_metadata initState "b1" "filesystem" ["C"]
          "SUCCESS" "" 0 "" none 3).1 "b2" "SUCCESS" "" 0 "" 4
      = ((store_backup_metadata initState "b1" "filesystem" ["C"]
          "SUCCESS" "" 0 "" none 3).1,
         false, "Backup record not found for ID: b2") :=
  ⟨by decide, update_backup_status_unknown_id _ "b2" "SUCCESS" "" 0 "" 4
    (by decide) (by decide)⟩

/-- C6: whatever the remote client does — including raising an exception
on any of its calls — the public tracker and listing operations
(`store_backup_metadata`, `update_backup_status`,
`delete_backup_record`, `list_all_collections`) return normally: every
failure is delivered as a `(False, message)` or empty result, never as a
propagated exception. -/
theorem public_boundary_never_raises :
    ∀ (c : RemoteClient) (backup_id : String),
      (∃ v, store_backup_metadataE c = .ok v)
      ∧ (∃ v, update_backup_statusE c backup_id = .ok v)
      ∧ (∃ v, delete_backup_recordE c = .ok v)
      ∧ (∃ v, list_all_collectionsE c = .ok v) := by
  intro c backup_id
  refine ⟨?_, ?_, ?_, ?_⟩
  · unfold store_backup_metadataE
    split <;> exact ⟨_, rfl⟩
  · unfold update_backup_statusE
    split <;> exact ⟨_, rfl⟩
  · unfold delete_backup_recordE
    split <;> exact ⟨_, rfl⟩
  · unfold list_all_collectionsE
    split <;> exact ⟨_, rfl⟩

/-- C7: `perform_deletion` is best-effort-sequential: every listed
collection is attempted (successes plus failures account for the whole
list), a failure — error result or exception — on one name never
suppresses the attempts on the others, and the failure report collects
exactly the failed names paired with their errors. -/
theorem perform_deletion_best_effort
    (f : String → Except String (Bool × String))
    (collections_to_delete : List String) :
    (perform_deletion f collections_to_delete).1
        + (perform_deletion f collections_to_delete).2.length
      = collections_to_delete.length
    ∧ (perform_deletion f collections_to_delete).2
      = collections_to_delete.filterMap (deletionFailure f)
    ∧ (perform_deletion f collections_to_delete).1
      = (collections_to_delete.filter
          (fun n => (deletionFailure f n).isNone)).length := by
  induction collections_to_delete with
  | nil => simp [perform_deletion]
  | cons collection rest ih =>
    obtain ⟨ih1, ih2, ih3⟩ := ih
    refine ⟨?_, ?_, ?_⟩ <;>
      simp only [perform_deletion, deletionFailure, List.filterMap_cons,
        List.filter_cons, List.length_cons] <;>
      rcases hf : f collection with e | ⟨b, m⟩
    · simp [deletionFailure, hf, ← ih1]; omega
    · cases b <;> simp [deletionFailure, hf, ← ih1] <;> omega
    · simp [deletionFailure, hf, ih2]
    · cases b <;> simp [deletionFailure, hf, ih2]
    · simp [deletionFailure, hf, ih3]
    · cases b <;> simp [deletionFailure, hf, ih3] <;> omega

/-- Helper: every sextet indexes into the base64 alphabet. -/
theorem base64Char_mem : ∀ n < 64, base64Char n ∈ base64Alphabet := by
  decide

/-- Helper: every character emitted by `base64Encode` is an alphabet
character or the `=` pad, i.e. the encoding is plain printable text. -/
theorem base64Encode_chars (bs : List Nat) :
    ∀ ch ∈ (base64Encode bs).data, ch ∈ base64Alphabet ∨ ch = '=' := by
  show ∀ ch ∈ base64Chars bs, ch ∈ base64Alphabet ∨ ch = '='
  induction bs using base64Chars.induct with
  | case4 => intro ch h; simp [base64Chars] at h
  | case3 b0 =>
    intro ch h
    simp only [base64Chars, List.mem_cons, List.not_mem_nil, or_false] at h
    rcases h with h | h | h | h <;> subst h <;>
      first
        | exact Or.inl (base64Char_mem _ (Nat.mod_lt _ (by omega)))
        | exact Or.inr rfl
  | case2 b0 b1 =>
    intro ch h
    simp only [base64Chars, List.mem_cons, List.not_mem_nil, or_false] at h
    rcases h with h | h | h | h <;> subst h <;>
      first
        | exact Or.inl (base64Char_mem _ (Nat.mod_lt _ (by omega)))
        | exact Or.inr rfl
  | case1 b0 b1 b2 rest ih =>
    intro ch h
    simp only [base64Chars, List.mem_cons] at h
    rcases h with h | h | h | h | h
    · subst h; exact Or.inl (base64Char_mem _ (Nat.mod_lt _ (by omega)))
    · subst h; exact Or.inl (base64Char_mem _ (Nat.mod_lt _ (by omega)))
    · subst h; exact Or.inl (base64Char_mem _ (Nat.mod_lt _ (by omega)))
    · subst h; exact Or.inl (base64Char_mem _ (Nat.mod_lt _ (by omega)))
    · exact ih ch h

/-- C9: in the add-document form, a BLOB property's outgoing value is
exactly the base64 encoding of the uploaded bytes decoded to text — a
string over the base64 alphabet plus padding, hence TEXT-compatible —
on both the multimodal image path and the generic file path, and the
empty string when no file is supplied. -/
theorem blob_value_is_base64
    (vectorizer prop_name : String) (uploaded : Option (List Nat)) :
    (∀ bytes, uploaded = some bytes →
        blobFieldValue vectorizer prop_name uploaded = base64Encode bytes
        ∧ ∀ ch ∈ (blobFieldValue vectorizer prop_name uploaded).data,
            ch ∈ base64Alphabet ∨ ch = '=')
    ∧ (uploaded = none → blobFieldValue vectorizer prop_name uploaded = "") := by
  constructor
  · rintro bytes rfl
    have hval : blobFieldValue vectorizer prop_name (some bytes)
        = base64Encode bytes := by
      unfold blobFieldValue
      split <;> rfl
    exact ⟨hval, by rw [hval]; exact base64Encode_chars bytes⟩
  · rintro rfl
    unfold blobFieldValue
    split <;> rfl

/-- C9 witness: a concrete three-byte upload is transported as its
base64 text, and the empty upload as the empty string. -/
theorem blob_value_is_base64_witness :
    blobFieldValue "multi2vec_clip" "image" (some [77, 97, 110])
        = base64Encode [77, 97, 110]
    ∧ base64Encode [77, 97, 110] = "TWFu"
    ∧ blobFieldValue "text2vec_openai" "attachment" none = "" :=
  ⟨((blob_value_is_base64 "multi2vec_clip" "image" (some [77, 97, 110])).1
      [77, 97, 110] rfl).1,
   by decide,
   (blob_value_is_base64 "text2vec_openai" "attachment" none).2 rfl⟩

/-- C5: `store_backup_metadata` performs no duplicate check — two calls
with the same `backup_id` both succeed and leave two records with that
id in the store — and `update_backup_status` then overwrites only the
first matching record found by the scan, leaving every other record
(in particular the second duplicate) untouched. -/
theorem store_allows_duplicate_ids :
    (∀ (s : TrackerState) (backup_id provider : String)
        (collections : List String) (status path : String)
        (size_bytes : Nat) (error_message : String)
        (completion_time : Option Nat) (now1 now2 : Nat),
      (store_backup_metadata s backup_id provider collections status path
          size_bytes error_message completion_time now1).2.1 = true
      ∧ (store_backup_metadata
          (store_backup_metadata s backup_id provider collections status
            path size_bytes error_message completion_time now1).1
          backup_id provider collections status path size_bytes
          error_message completion_time now2).2.1 = true
      ∧ (store_backup_metadata
          (store_backup_metadata s backup_id provider collections status
            path size_bytes error_message completion_time now1).1
          backup_id provider collections status path size_bytes
          error_message completion_time now2).1.store.countP
            (fun r => r.backup_id = backup_id)
        = s.store.countP (fun r => r.backup_id = backup_id) + 2)
    ∧ (∀ (s : TrackerState) (backup_id status error_message : String)
        (size_bytes : Nat) (path : String) (now : Nat) (r0 : BackupRecord),
      s.historyExists = true →
      (s.store.take 1000).find? (fun r => r.backup_id = backup_id)
        = some r0 →
      (update_backup_status s backup_id status error_message size_bytes
            path now).1.store
          = s.store.map (fun x =>
              if x.uuid = r0.uuid then
                updatedRecord r0 status error_message size_bytes path now
              else x)
        ∧ ∀ x ∈ s.store, x.uuid ≠ r0.uuid →
            x ∈ (update_backup_status s backup_id status error_message
              size_bytes path now).1.store) := by
  constructor
  · intro s backup_id provider collections status path size_bytes
      error_message completion_time now1 now2
    refine ⟨rfl, rfl, ?_⟩
    simp [store_backup_metadata, buildMetadata, List.countP_append,
      initialize_store]
  · intro s backup_id status error_message size_bytes path now r0 hex hfind
    constructor
    · simp [update_backup_status, hex, hfind]
    · intro x hx hne
      have : (if x.uuid = r0.uuid then
          updatedRecord r0 status error_message size_bytes path now
        else x) = x := if_neg hne
      simp only [update_backup_status, hex, hfind, if_true]
      rw [← this]
      exact List.mem_map_of_mem _ hx

/-- The store reached by inserting `backup_id = "b1"` twice
(`IN_PROGRESS`, times 2 and 3), used to exercise the duplicate-id
behaviour. -/
def dupState : TrackerState :=
  (store_backup_metadata
    (store_backup_metadata initState "b1" "filesystem" ["C"]
      "IN_PROGRESS" "" 0 "" none 2).1
    "b1" "filesystem" ["C"] "IN_PROGRESS" "" 0 "" none 3).1

/-- The first of the two duplicate records in `dupState`. -/
def dupFirst : BackupRecord :=
  { uuid := 0, backup_id := "b1", provider := "filesystem",
    status := "IN_PROGRESS", created_date := 2, collections := ["C"],
    path := "", size_bytes := 0, error_message := "",
    completion_time := none }

/-- C5 witness: two concrete inserts of `b1` both succeed and leave two
matching records; the subsequent update rewrites only the scan's first
match (uuid 0), the duplicate (uuid 1) surviving unchanged. -/
theorem store_allows_duplicate_ids_witness :
    ((store_backup_metadata
        (store_backup_metadata initState "b1" "filesystem" ["C"]
          "IN_PROGRESS" "" 0 "" none 2).1
        "b1" "filesystem" ["C"] "IN_PROGRESS" "" 0 "" none 3).1.store.countP
          (fun r => r.backup_id = "b1")
      = initState.store.countP (fun r => r.backup_id = "b1") + 2)
    ∧ ((update_backup_status dupState "b1" "SUCCESS" "" 0 "" 9).1.store
        = dupState.store.map (fun x =>
            if x.uuid = dupFirst.uuid then
              updatedRecord dupFirst "SUCCESS" "" 0 "" 9
            else x))
    ∧ (∀ x ∈ dupState.store, x.uuid ≠ dupFirst.uuid →
        x ∈ (update_backup_status dupState "b1" "SUCCESS" "" 0 "" 9).1.store) :=
  ⟨(store_allows_duplicate_ids.1 initState "b1" "filesystem" ["C"]
      "IN_PROGRESS" "" 0 "" none 2 3).2.2,
   (store_allows_duplicate_ids.2 dupState "b1" "SUCCESS" "" 0 "" 9 dupFirst
      (by decide) (by decide)).1,
   (store_allows_duplicate_ids.2 dupState "b1" "SUCCESS" "" 0 "" 9 dupFirst
      (by decide) (by decide)).2⟩

/-- The store reached by inserting records with `created_date` values
`T2 = 2`, `T3 = 3`, `T1 = 1` in that insertion order (backup ids `b2`,
`b3`, `b1`). -/
def sampleHistoryState : TrackerState :=
  (store_backup_metadata
    (store_backup_metadata
      (store_backup_metadata initState "b2" "filesystem" []
        "SUCCESS" "" 0 "" none 2).1
      "b3" "filesystem" [] "SUCCESS" "" 0 "" none 3).1
    "b1" "filesystem" [] "SUCCESS" "" 0 "" none 1).1

unseal List.mergeSort List.merge in
/-- C3: on a fetched record set with pairwise distinct `created_date`
values, `get_backup_history` returns a permutation of those records in
strictly descending `created_date` order (newest first), whatever order
the remote store returned them in; in particular inserting dates
`T1 < T2 < T3` in order `T2, T3, T1` yields output order `T3, T2, T1`. -/
theorem get_backup_history_newest_first :
    (∀ (s : TrackerState) (limit : Nat),
        s.historyExists = true →
        (s.store.take limit).Pairwise
            (fun a b => a.created_date ≠ b.created_date) →
        (get_backup_history s limit).Pairwise
            (fun a b => b.created_date < a.created_date)
          ∧ (get_backup_history s limit).Perm (s.store.take limit))
    ∧ (get_backup_history sampleHistoryState 100).map (fun r => r.backup_id)
        = ["b3", "b2", "b1"] := by
  constructor
  · intro s limit hex hdist
    have hperm : (get_backup_history s limit).Perm (s.store.take limit) := by
      simp only [get_backup_history, hex, if_true]
      exact List.mergeSort_perm _ _
    refine ⟨?_, hperm⟩
    have hsorted : (get_backup_history s limit).Pairwise
        (fun a b => b.created_date ≤ a.created_date) := by
      simp only [get_backup_history, hex, if_true]
      have := @List.sorted_mergeSort BackupRecord
        (fun a b : BackupRecord => decide (b.created_date ≤ a.created_date))
        (fun a b c hab hbc => by
          simp only [decide_eq_true_eq] at *; omega)
        (fun a b => by
          simp only [Bool.or_eq_true, decide_eq_true_eq]; omega)
        (s.store.take limit)
      exact this.imp (fun h => by simpa using h)
    have hne : (get_backup_history s limit).Pairwise
        (fun a b => a.created_date ≠ b.created_date) := by
      refine ((List.Perm.pairwise_iff ?_ hperm).2 hdist)
      intro a b h
      exact h.symm
    exact (hsorted.and hne).imp (fun h => by omega)
  · decide

/-- C3 witness: the concrete `T2, T3, T1` store satisfies the
distinctness hypothesis, and the general theorem applies to it. -/
theorem get_backup_history_newest_first_witness :
    sampleHistoryState.historyExists = true
    ∧ (sampleHistoryState.store.take 100).Pairwise
        (fun a b => a.created_date ≠ b.created_date)
    ∧ (get_backup_history sampleHistoryState 100).Pairwise
        (fun a b => b.created_date < a.created_date)
    ∧ (get_backup_history sampleHistoryState 100).Perm
        (sampleHistoryState.store.take 100) :=
  ⟨by decide, by decide,
   (get_backup_history_newest_first.1 sampleHistoryState 100
      (by decide) (by decide)).1,
   (get_backup_history_newest_first.1 sampleHistoryState 100
      (by decide) (by decide)).2⟩

/-- Helper: when the collection exists and the scan locates `r0`,
`update_backup_status` rewrites exactly the record with `r0`'s uuid. -/
theorem update_backup_status_store_hit
    (s : TrackerState) (backup_id status error_message : String)
    (size_bytes : Nat) (path : String) (now : Nat) (r0 : BackupRecord)
    (hex : s.historyExists = true)
    (hfind : (s.store.take 1000).find? (fun r => r.backup_id = backup_id)
      = some r0) :
    (update_backup_status s backup_id status error_message size_bytes path
        now).1.store
      = s.store.map (fun x =>
          if x.uuid = r0.uuid then
            updatedRecord r0 status error_message size_bytes path now
          else x) := by
  simp [update_backup_status, hex, hfind]

/-- Helper: appending a record with the sought `backup_id` to a store
containing no match makes it the record the scan finds. -/
theorem find?_backup_id_append_fresh
    (l : List BackupRecord) (r : BackupRecord) (backup_id : String)
    (hid : ∀ x ∈ l, x.backup_id ≠ backup_id) (hr : r.backup_id = backup_id) :
    (l ++ [r]).find? (fun x => x.backup_id = backup_id) = some r := by
  rw [List.find?_append]
  have h1 : l.find? (fun x => x.backup_id = backup_id) = none := by
    simp only [List.find?_eq_none, decide_eq_true_eq]
    exact hid
  simp [h1, hr]

/-- C2 counterexample: `restore_backup` performs no history tracking at
all — invoked on the empty database, on both the normal-completion and
the exception path, it leaves the tracker state unchanged, so no
`IN_PROGRESS` record is ever stored and no terminal transition ever
happens for a restore. -/
theorem restore_backup_no_history_cex :
    (restore_backup initState "b1" "filesystem" (Except.ok ())).1 = initState
    ∧ (restore_backup initState "b1" "filesystem"
        (Except.error "network error")).1 = initState
    ∧ initState.store = [] :=
  ⟨rfl, rfl, rfl⟩

/-- C2 amended: `create_backup` follows the orchestration the spec
describes — it first stores an `IN_PROGRESS` record, then invokes the
external backup primitive, and transitions that record to `SUCCESS` on
normal completion or to `FAILED` (carrying the exception text) on
exception — provided the `backup_id` is not already present and the
store is within the 1000-record scan bound; `restore_backup`, by
contrast, merely invokes the restore primitive and never stores or
updates any history record. -/
theorem create_backup_orchestration
    (s : TrackerState) (backup_id provider : String)
    (collections : List String) (now : Nat)
    (hid : ∀ x ∈ s.store, x.backup_id ≠ backup_id)
    (hlen : s.store.length ≤ 999)
    (hfresh : ∀ x ∈ s.store, x.uuid ≠ s.nextUuid) :
    (store_backup_metadata s backup_id provider collections "IN_PROGRESS"
        "" 0 "" none now).1.store
      = s.store ++ [buildMetadata backup_id provider collections
          "IN_PROGRESS" "" 0 "" none s.nextUuid now]
    ∧ (buildMetadata backup_id provider collections "IN_PROGRESS" "" 0 ""
        none s.nextUuid now).status = "IN_PROGRESS"
    ∧ (create_backup s backup_id provider collections (Except.ok ())
        now).1.store
      = s.store ++ [{ buildMetadata backup_id provider collections
          "IN_PROGRESS" "" 0 "" none s.nextUuid now with
          status := "SUCCESS", completion_time := some now }]
    ∧ (∀ e, (create_backup s backup_id provider collections
        (Except.error e) now).1.store
      = s.store ++ [{ buildMetadata backup_id provider collections
          "IN_PROGRESS" "" 0 "" none s.nextUuid now with
          status := "FAILED", completion_time := some now,
          error_message := e }])
    ∧ (∀ (s' : TrackerState) (id' prov' : String)
        (res : Except String Unit), (restore_backup s' id' prov' res).1 = s') := by
  have hrecid : (buildMetadata backup_id provider collections "IN_PROGRESS"
      "" 0 "" none s.nextUuid now).backup_id = backup_id := rfl
  have hstore1 : (store_backup_metadata s backup_id provider collections
      "IN_PROGRESS" "" 0 "" none now).1.store
      = s.store ++ [buildMetadata backup_id provider collections
          "IN_PROGRESS" "" 0 "" none s.nextUuid now] := by
    simp [store_backup_metadata, initialize_store, initialize_nextUuid]
  have hex1 : (store_backup_metadata s backup_id provider collections
      "IN_PROGRESS" "" 0 "" none now).1.historyExists = true := by
    simp [store_backup_metadata, initialize_historyExists]
  have hfind : ((store_backup_metadata s backup_id provider collections
      "IN_PROGRESS" "" 0 "" none now).1.store.take 1000).find?
        (fun r => r.backup_id = backup_id)
      = some (buildMetadata backup_id provider collections "IN_PROGRESS"
          "" 0 "" none s.nextUuid now) := by
    rw [hstore1, List.take_of_length_le (by simp; omega)]
    exact find?_backup_id_append_fresh _ _ _ hid hrecid
  have hmap : ∀ (status err : String),
      (store_backup_metadata s backup_id provider collections "IN_PROGRESS"
        "" 0 "" none now).1.store.map (fun x =>
          if x.uuid = (buildMetadata backup_id provider collections
              "IN_PROGRESS" "" 0 "" none s.nextUuid now).uuid then
            updatedRecord (buildMetadata backup_id provider collections
              "IN_PROGRESS" "" 0 "" none s.nextUuid now) status err 0 "" now
          else x)
      = s.store ++ [updatedRecord (buildMetadata backup_id provider
          collections "IN_PROGRESS" "" 0 "" none s.nextUuid now)
          status err 0 "" now] := by
    intro status err
    rw [hstore1, List.map_append]
    congr 1
    · apply map_eq_self_of_fixed
      intro x hx
      have : x.uuid ≠ (buildMetadata backup_id provider collections
          "IN_PROGRESS" "" 0 "" none s.nextUuid now).uuid := hfresh x hx
      exact if_neg this
    · simp
  refine ⟨hstore1, rfl, ?_, ?_, ?_⟩
  · show (update_backup_status (store_backup_metadata s backup_id provider
        collections "IN_PROGRESS" "" 0 "" none now).1 backup_id "SUCCESS"
        "" 0 "" now).1.store = _
    rw [update_backup_status_store_hit _ _ _ _ _ _ _ _ hex1 hfind, hmap]
    simp [updatedRecord]
  · intro e
    show (update_backup_status (store_backup_metadata s backup_id provider
        collections "IN_PROGRESS" "" 0 "" none now).1 backup_id "FAILED"
        e 0 "" now).1.store = _
    rw [update_backup_status_store_hit _ _ _ _ _ _ _ _ hex1 hfind, hmap]
    congr 1
    by_cases he : e = "" <;> simp [updatedRecord, buildMetadata, he]
  · intro s' id' prov' res
    cases res <;> rfl

/-- C2 witness: the orchestration theorem applied to a concrete fresh
backup on the empty database: the success path yields one `SUCCESS`
record, the exception path one `FAILED` record carrying the error
text. -/
theorem create_backup_orchestration_witness :
    (create_backup initState "b1" "s3" ["C"] (Except.ok ()) 4).1.store
      = initState.store ++ [{ buildMetadata "b1" "s3" ["C"] "IN_PROGRESS"
          "" 0 "" none initState.nextUuid 4 with
          status := "SUCCESS", completion_time := some 4 }]
    ∧ (create_backup initState "b1" "s3" ["C"]
        (Except.error "disk full") 4).1.store
      = initState.store ++ [{ buildMetadata "b1" "s3" ["C"] "IN_PROGRESS"
          "" 0 "" none initState.nextUuid 4 with
          status := "FAILED", completion_time := some 4,
          error_message := "disk full" }] :=
  ⟨(create_backup_orchestration initState "b1" "s3" ["C"] 4
      (by decide) (by decide) (by decide)).2.2.1,
   (create_backup_orchestration initState "b1" "s3" ["C"] 4
      (by decide) (by decide) (by decide)).2.2.2.1 "disk full"⟩

/-- C8 counterexample: starting from an accepted property `"my prop"`,
the add handler accepts `"My Prop"` — its sanitized form `"my_prop"`
(spaces replaced) differs from the stored name's mere lower-casing
`"my prop"` — leaving two accepted properties whose names are equal up
to case. -/
theorem property_name_collision_cex :
    (addProperty (addProperty [] "my prop" "TEXT").1 "My Prop" "TEXT").2
      = true
    ∧ ((addProperty (addProperty [] "my prop" "TEXT").1 "My Prop"
        "TEXT").1.map (fun p => pyLower p.name))
      = ["my prop", "my prop"] := by
  decide

/-- Helper: an "Add Property" click either leaves the accepted list
unchanged (blank or duplicate-keyed name) or appends the stripped name,
whose sanitized form was absent from the lower-cased stored names. -/
theorem addProperty_cases (props : List CustomProperty) (raw ty : String) :
    (addProperty props raw ty).1 = props
    ∨ ((addProperty props raw ty).1
        = props ++ [{ name := pyStrip raw, dataType := ty, description := "" }]
      ∧ sanitizedName raw ∉ props.map (fun p => pyLower p.name)) := by
  unfold addProperty
  by_cases h1 : pyStrip raw ≠ ""
  · by_cases h2 : sanitizedName raw ∈ props.map (fun prop => pyLower prop.name)
    · left; simp [h1, h2]
    · right; exact ⟨by simp [h1, h2], h2⟩
  · left; simp [h1]

/-- Helper: accepted-name uniqueness invariant for the add-property
fold, for inputs whose sanitization is pure strip-and-lowercase (no
space substitution). -/
theorem addProperty_fold_nodup
    (inputs : List (String × String)) :
    ∀ props : List CustomProperty,
      (∀ i ∈ inputs, sanitizedName i.1 = pyLower (pyStrip i.1)) →
      (props.map (fun p => pyLower p.name)).Nodup →
      ((inputs.foldl (fun ps i => (addProperty ps i.1 i.2).1) props).map
          (fun p => pyLower p.name)).Nodup := by
  induction inputs with
  | nil => intro props _ hnd; exact hnd
  | cons i rest ih =>
    intro props hin hnd
    simp only [List.foldl_cons]
    apply ih
    · intro j hj; exact hin j (List.mem_cons_of_mem i hj)
    · rcases addProperty_cases props i.1 i.2 with heq | ⟨heq, hnew⟩
      · rw [heq]; exact hnd
      · rw [heq, List.map_append, List.nodup_append]
        have hs := hin i (List.mem_cons_self i rest)
        refine ⟨hnd, by simp, ?_⟩
        intro a ha hb
        simp only [List.map_cons, List.map_nil, List.mem_singleton] at hb
        subst hb
        rw [← hs] at ha
        exact hnew ha

/-- C8 amended: the duplicate check compares the *sanitized* new name
(strip, lowercase, spaces to underscores) against the merely
lower-cased stored names; whenever every submitted name sanitizes to
exactly its stripped lower-casing (in particular whenever names contain
no spaces), accepted property names remain pairwise distinct
case-insensitively — the claimed invariant fails only for names where
the space-to-underscore substitution makes the two comparison keys
diverge. -/
theorem property_names_unique_without_spaces
    (inputs : List (String × String))
    (h : ∀ i ∈ inputs, sanitizedName i.1 = pyLower (pyStrip i.1)) :
    ((addProperties inputs).map (fun p => pyLower p.name)).Nodup :=
  addProperty_fold_nodup inputs [] h (by simp)

/-- C8 witness: a concrete click sequence without spaces — the repeated
`"TITLE"` is rejected and the accepted names stay case-insensitively
unique. -/
theorem property_names_unique_without_spaces_witness :
    (∀ i ∈ [("Title", "TEXT"), ("TITLE", "INT"), ("body", "TEXT")],
        sanitizedName (Prod.fst i) = pyLower (pyStrip (Prod.fst i)))
    ∧ ((addProperties [("Title", "TEXT"), ("TITLE", "INT"),
        ("body", "TEXT")]).map (fun p => pyLower p.name)).Nodup :=
  ⟨by decide,
   property_names_unique_without_spaces
     [("Title", "TEXT"), ("TITLE", "INT"), ("body", "TEXT")] (by decide)⟩

/-- A first create of backup `b1` that completes successfully. -/
def cexTrace1 : List TrackerOp :=
  [.createOp "b1" "filesystem" ["C"] (.ok ()) 0]

/-- The same trace followed by a second create reusing `b1`, whose
external backup call raises (as a real duplicate-id backup does). -/
def cexTrace2 : List TrackerOp :=
  cexTrace1 ++ [.createOp "b1" "filesystem" ["C"] (.error "backup failed") 1]

/-- C1 counterexample: after a successful `create_backup "b1"` the
record uuid 0 is in terminal status `SUCCESS`; a second `create_backup`
reusing the same id stores a duplicate and, when the external call
raises, its `FAILED` update rewrites the *first* scan match — the old
terminal record — so uuid 0 leaves `SUCCESS` for `FAILED` (and the new
record is stranded `IN_PROGRESS`): terminal statuses are not
preserved by the tracker's own operations. -/
theorem terminal_status_not_stable_cex :
    (run cexTrace1).store.map (fun r => (r.uuid, r.status))
      = [(0, "SUCCESS")]
    ∧ (run cexTrace2).store.map (fun r => (r.uuid, r.status))
      = [(0, "FAILED"), (1, "IN_PROGRESS")] := by
  decide

/-- The structural invariant of reachable tracker states: stored uuids
are pairwise distinct and below the fresh-uuid counter. -/
def GoodState (s : TrackerState) : Prop :=
  (s.store.map (fun r => r.uuid)).Nodup
  ∧ ∀ x ∈ s.store, x.uuid < s.nextUuid

/-- Helper: the invariant survives `store_backup_metadata`. -/
theorem goodState_store (s : TrackerState) (h : GoodState s)
    (backup_id provider : String) (collections : List String)
    (status path : String) (size_bytes : Nat) (error_message : String)
    (completion_time : Option Nat) (now : Nat) :
    GoodState (store_backup_metadata s backup_id provider collections
      status path size_bytes error_message completion_time now).1 := by
  obtain ⟨hnd, hlt⟩ := h
  constructor
  · simp only [store_backup_metadata, initialize_store, initialize_nextUuid,
      List.map_append, List.map_cons, List.map_nil]
    rw [List.nodup_append]
    refine ⟨hnd, by simp, ?_⟩
    intro a ha hb
    simp only [buildMetadata, List.mem_singleton] at hb
    subst hb
    obtain ⟨x, hx, hxa⟩ := List.mem_map.1 ha
    exact absurd rfl (Nat.ne_of_lt (hxa ▸ hlt x hx))
  · intro x hx
    simp only [store_backup_metadata, initialize_store, initialize_nextUuid,
      List.mem_append, List.mem_singleton] at hx ⊢
    rcases hx with hx | hx
    · exact Nat.lt_trans (hlt x hx) (Nat.lt_succ_self _)
    · subst hx
      simp [buildMetadata, Nat.lt_succ_self]

/-- Helper: `update_backup_status` either leaves the state unchanged or
rewrites the record located by the scan, keeping everything else. -/
theorem update_backup_status_spec (s : TrackerState)
    (backup_id status error_message : String) (size_bytes : Nat)
    (path : String) (now : Nat) :
    (update_backup_status s backup_id status error_message size_bytes path
        now).1 = s
    ∨ ∃ r0, (s.store.take 1000).find? (fun r => r.backup_id = backup_id)
          = some r0
        ∧ (update_backup_status s backup_id status error_message size_bytes
            path now).1
          = { s with store := s.store.map (fun x =>
              if x.uuid = r0.uuid then
                updatedRecord r0 status error_message size_bytes path now
              else x) } := by
  unfold update_backup_status
  by_cases hex : s.historyExists
  · rw [if_pos hex]
    cases hfind : (s.store.take 1000).find?
        (fun r => r.backup_id = backup_id) with
    | none => left; rfl
    | some r0 => right; exact ⟨r0, rfl, rfl⟩
  · rw [if_neg hex]
    left
    rfl

/-- Helper: the invariant survives `update_backup_status` (the rewrite
keeps the located record's uuid). -/
theorem goodState_update (s : TrackerState) (h : GoodState s)
    (backup_id status error_message : String) (size_bytes : Nat)
    (path : String) (now : Nat) :
    GoodState (update_backup_status s backup_id status error_message
      size_bytes path now).1 := by
  obtain ⟨hnd, hlt⟩ := h
  rcases update_backup_status_spec s backup_id status error_message
      size_bytes path now with heq | ⟨r0, _hfind, heq⟩
  · rw [heq]; exact ⟨hnd, hlt⟩
  · rw [heq]
    have huuid : ∀ x ∈ s.store,
        ((fun r : BackupRecord => r.uuid) ∘ (fun x => if x.uuid = r0.uuid then
            updatedRecord r0 status error_message size_bytes path now
          else x)) x = x.uuid := by
      intro x _
      by_cases hx : x.uuid = r0.uuid
      · simp [Function.comp, hx, updatedRecord]
      · simp [Function.comp, hx]
    constructor
    · show ((s.store.map (fun x => if x.uuid = r0.uuid then
          updatedRecord r0 status error_message size_bytes path now
        else x)).map (fun r : BackupRecord => r.uuid)).Nodup
      rw [List.map_map, List.map_congr_left huuid]
      exact hnd
    · intro x hx
      obtain ⟨y, hy, hyx⟩ := List.mem_map.1 hx
      rw [← hyx]
      show (if y.uuid = r0.uuid then _ else y).uuid < s.nextUuid
      by_cases hyc : y.uuid = r0.uuid
      · simpa [hyc, updatedRecord] using hyc ▸ hlt y hy
      · simpa [hyc] using hlt y hy

/-- Helper: the invariant survives `delete_backup_record`. -/
theorem goodState_delete (s : TrackerState) (h : GoodState s)
    (backup_uuid : Nat) :
    GoodState (delete_backup_record s backup_uuid).1 := by
  obtain ⟨hnd, hlt⟩ := h
  unfold delete_backup_record
  by_cases hex : s.historyExists
  · simp only [hex, if_true]
    constructor
    · exact ((List.filter_sublist _).map _).nodup hnd
    · intro x hx
      exact hlt x (List.mem_of_mem_filter hx)
  · simpa [hex] using ⟨hnd, hlt⟩

/-- Helper: the invariant survives every tracker operation. -/
theorem goodState_applyOp (s : TrackerState) (h : GoodState s)
    (op : TrackerOp) : GoodState (applyOp s op) := by
  cases op with
  | storeOp id prov colls status path size err ct now =>
    exact goodState_store s h id prov colls status path size err ct now
  | updateOp id status err size path now =>
    exact goodState_update s h id status err size path now
  | deleteOp u => exact goodState_delete s h u
  | createOp id prov colls res now =>
    have h1 := goodState_store s h id prov colls "IN_PROGRESS" "" 0 "" none now
    show GoodState (create_backup s id prov colls res now).1
    unfold create_backup
    cases res with
    | ok _ => exact goodState_update _ h1 id "SUCCESS" "" 0 "" now
    | error e => exact goodState_update _ h1 id "FAILED" e 0 "" now
  | restoreOp id prov res =>
    show GoodState (restore_backup s id prov res).1
    cases res with
    | ok _ => exact h
    | error e => exact h

/-- Helper: every reachable tracker state satisfies the invariant. -/
theorem reachable_goodState (s : TrackerState) (h : Reachable s) :
    GoodState s := by
  obtain ⟨ops, rfl⟩ := h
  suffices hgen : ∀ (l : List TrackerOp) (t : TrackerState), GoodState t →
      GoodState (l.foldl applyOp t) by
    exact hgen ops initState ⟨by simp [initState], by simp [initState]⟩
  intro l
  induction l with
  | nil => intro t ht; exact ht
  | cons op rest ih =>
    intro t ht
    exact ih (applyOp t op) (goodState_applyOp t ht op)

/-- Helper: `update_backup_status` leaves any record with a different
`backup_id` in the store untouched (relying on uuid distinctness). -/
theorem update_preserves_other
    (s : TrackerState) (backup_id status error_message : String)
    (size_bytes : Nat) (path : String) (now : Nat) (r : BackupRecord)
    (hr : r ∈ s.store)
    (hnd : (s.store.map (fun x => x.uuid)).Nodup)
    (hne : r.backup_id ≠ backup_id) :
    r ∈ (update_backup_status s backup_id status error_message size_bytes
      path now).1.store := by
  rcases update_backup_status_spec s backup_id status error_message
      size_bytes path now with heq | ⟨r0, hfind, heq⟩
  · rw [heq]; exact hr
  · rw [heq]
    have hr0id : r0.backup_id = backup_id := by
      have := List.find?_some hfind
      simpa using this
    have hr0 : r0 ∈ s.store :=
      List.take_subset 1000 s.store (List.mem_of_find?_eq_some hfind)
    have hrne : r ≠ r0 := fun hcontra => hne (hcontra ▸ hr0id)
    have hune : r.uuid ≠ r0.uuid := fun hcontra =>
      hrne (List.inj_on_of_nodup_map hnd hr hr0 hcontra)
    have hfix : (if r.uuid = r0.uuid then
        updatedRecord r0 status error_message size_bytes path now
      else r) = r := if_neg hune
    show r ∈ s.store.map _
    rw [← hfix]
    exact List.mem_map_of_mem _ hr

/-- The operations that do not address record `r`: any insert and any
restore; deletes of other uuids; updates and creates whose `backup_id`
differs from `r`'s. -/
def avoids (r : BackupRecord) : TrackerOp → Prop
  | .storeOp _ _ _ _ _ _ _ _ _ => True
  | .updateOp backup_id _ _ _ _ _ => backup_id ≠ r.backup_id
  | .deleteOp backup_uuid => backup_uuid ≠ r.uuid
  | .createOp backup_id _ _ _ _ => backup_id ≠ r.backup_id
  | .restoreOp _ _ _ => True

/-- C1 amended: `update_backup_status` applies no terminal-status guard,
so a `SUCCESS`/`FAILED` record can be re-transitioned by any later
update (directly or via `create_backup`) addressing its `backup_id` —
see the counterexample.  What does hold in every reachable state: a
record in terminal status survives unchanged (status included) under
`store_backup_metadata`, `restore_backup`, deletion of other records,
and any `update_backup_status`/`create_backup` for a different
`backup_id`; hence terminal records stay terminal until deleted whenever
backup ids are never reused. -/
theorem terminal_status_stable
    (s : TrackerState) (hreach : Reachable s) (r : BackupRecord)
    (hr : r ∈ s.store)
    (hterm : r.status = "SUCCESS" ∨ r.status = "FAILED")
    (op : TrackerOp) (hav : avoids r op) :
    r ∈ (applyOp s op).store := by
  have hgood := reachable_goodState s hreach
  cases op with
  | storeOp id prov colls status path size err ct now =>
    show r ∈ (store_backup_metadata s id prov colls status path size err
      ct now).1.store
    have hst : (store_backup_metadata s id prov colls status path size err
        ct now).1.store = s.store ++ [buildMetadata id prov colls status
          path size err ct s.nextUuid now] := by
      simp [store_backup_metadata, initialize_store, initialize_nextUuid]
    rw [hst]
    exact List.mem_append_left _ hr
  | updateOp id status err size path now =>
    exact update_preserves_other s id status err size path now r hr
      hgood.1 (fun hc => hav hc.symm)
  | deleteOp u =>
    show r ∈ (delete_backup_record s u).1.store
    unfold delete_backup_record
    by_cases hex : s.historyExists
    · simp only [hex, if_true]
      refine List.mem_filter.2 ⟨hr, ?_⟩
      simpa using fun hc => hav hc.symm
    · simpa [hex] using hr
  | createOp id prov colls res now =>
    show r ∈ (create_backup s id prov colls res now).1.store
    have h1 := goodState_store s hgood id prov colls "IN_PROGRESS" "" 0 ""
      none now
    have hr1 : r ∈ (store_backup_metadata s id prov colls "IN_PROGRESS" ""
        0 "" none now).1.store := by
      have hst : (store_backup_metadata s id prov colls "IN_PROGRESS" "" 0
          "" none now).1.store = s.store ++ [buildMetadata id prov colls
            "IN_PROGRESS" "" 0 "" none s.nextUuid now] := by
        simp [store_backup_metadata, initialize_store, initialize_nextUuid]
      rw [hst]
      exact List.mem_append_left _ hr
    unfold create_backup
    cases res with
    | ok _ =>
      exact update_preserves_other _ id "SUCCESS" "" 0 "" now r hr1
        h1.1 (fun hc => hav hc.symm)
    | error e =>
      exact update_preserves_other _ id "FAILED" e 0 "" now r hr1
        h1.1 (fun hc => hav hc.symm)
  | restoreOp id prov res =>
    show r ∈ (restore_backup s id prov res).1.store
    cases res with
    | ok _ => exact hr
    | error e => exact hr

/-- The terminal `SUCCESS` record produced by the trace of one
successful create of `b1`. -/
def stableRec : BackupRecord :=
  { uuid := 0, backup_id := "b1", provider := "filesystem",
    status := "SUCCESS", created_date := 0, collections := ["C"],
    path := "", size_bytes := 0, error_message := "",
    completion_time := some 0 }

/-- C1 amended witness: in the concrete reachable state after one
successful create, the terminal record survives an update addressed to
a different backup id. -/
theorem terminal_status_stable_witness :
    stableRec ∈ (run cexTrace1).store
    ∧ stableRec.status = "SUCCESS"
    ∧ stableRec ∈ (applyOp (run cexTrace1)
        (.updateOp "b2" "FAILED" "" 0 "" 6)).store :=
  ⟨by decide, rfl,
   terminal_status_stable (run cexTrace1) ⟨cexTrace1, rfl⟩ stableRec
     (by decide) (Or.inl rfl) (.updateOp "b2" "FAILED" "" 0 "" 6)
     (show ("b2" : String) ≠ "b1" by decide)⟩

end WeaviateConsole
